import Mathlib

/-!
Verification of the transactional money-transfer engine of the simplebank
repository (package db: store.go, together with the AddAccountBalance query of
db/query/account.sql).

The database is modelled as an explicit state (lists of account, entry and
transfer rows).  Each repository call of the workflow is a state-passing
function that may fail; an environment of injectable errors (one per call
position) models driver/database failures, and a transaction environment
models failures of BeginTx, Commit and Rollback.  The trace of issued
repository operations and of diagnostic print statements is recorded
alongside the state.
-/

namespace SimpleBank

/-- A Go error value: the sentinel sql.ErrNoRows, an arbitrary driver error
identified by a number, or the composite error built by execTx via
fmt.Errorf from a transaction error and a rollback error. -/
inductive GoError where
  | noRows : GoError
  | errMsg : Nat → GoError
  | composite : GoError → GoError → GoError
deriving Repr, DecidableEq

/-- An account row of the accounts table (models.go): id, owner, balance,
currency.  The created_at timestamp is not modelled. -/
structure Account where
  id : Int
  owner : String
  balance : Int
  currency : String
deriving Repr, DecidableEq

/-- An entry row of the entries table: id, owning account id, signed amount. -/
structure Entry where
  id : Int
  account_id : Int
  amount : Int
deriving Repr, DecidableEq

/-- A transfer row of the transfers table: id, source account id, destination
account id, amount. -/
structure Transfer where
  id : Int
  from_account_id : Int
  to_account_id : Int
  amount : Int
deriving Repr, DecidableEq

/-- The persisted database state: the three tables and the auto-increment
counters for entry and transfer ids. -/
structure DB where
  accounts : List Account
  entries : List Entry
  transfers : List Transfer
  nextEntryID : Int
  nextTransferID : Int
deriving Repr, DecidableEq

/-- A repository operation issued against the open transaction, as named by
the sqlc queries used in TransferTx. -/
inductive RepoOp where
  | createTransfer (from_account_id to_account_id amount : Int)
  | createEntry (account_id amount : Int)
  | addAccountBalance (id amount : Int)
deriving Repr, DecidableEq

/-- State threaded through the unit of work: the database as seen inside the
transaction, the trace of issued repository operations, the number of
repository calls made so far, and the log of fmt.Println diagnostics. -/
structure TxState where
  db : DB
  trace : List RepoOp
  step : Nat
  prints : List (Option String × String)
deriving Repr, DecidableEq

/-- Initial transaction state over a given database. -/
def TxState.init (db : DB) : TxState :=
  { db := db, trace := [], step := 0, prints := [] }

/-- Fault environment: the error, if any, injected at the n-th repository
call of the transaction (modelling driver or database failures). -/
def QEnv : Type := Nat → Option GoError

/-- Outcomes of BeginTx, Commit and Rollback for one execTx invocation. -/
structure TxEnv where
  beginErr : Option GoError
  commitErr : Option GoError
  rollbackErr : Option GoError
deriving Repr, DecidableEq

/-- Result of a fallible repository call: on failure the error together with
the state at the point of failure, on success the value and the new state. -/
abbrev QRes (α : Type) : Type := Except (GoError × TxState) (α × TxState)

/-- Record the fmt.Println of the transaction name and a message
(store.go prints the txKey context value before each workflow step). -/
def logPrint (txName : Option String) (msg : String) (s : TxState) : TxState :=
  { s with prints := s.prints ++ [(txName, msg)] }

/-- Parameters of the CreateTransfer query (store.go CreateTransferParams). -/
structure CreateTransferParams where
  from_account_id : Int
  to_account_id : Int
  amount : Int
deriving Repr, DecidableEq

/-- Parameters of the CreateEntry query (store.go CreateEntryParams). -/
structure CreateEntryParams where
  account_id : Int
  amount : Int
deriving Repr, DecidableEq

/-- Parameters of the AddAccountBalance query (account.sql names them
id and amount via sqlc.arg). -/
structure AddAccountBalanceParams where
  id : Int
  amount : Int
deriving Repr, DecidableEq

/-- Modelled from the spec: the generated CreateTransfer query method is not
under src/ (only account.sql is); per the spec it is
createTransfer(fromID, toID, amount) returning the created Transfer row.
It inserts one transfer row with a fresh id and returns it. -/
def createTransfer (qenv : QEnv) (p : CreateTransferParams) (s : TxState) :
    QRes Transfer :=
  let s' : TxState :=
    { s with trace := s.trace ++ [RepoOp.createTransfer p.from_account_id p.to_account_id p.amount]
             step := s.step + 1 }
  match qenv s.step with
  | some e => .error (e, s')
  | none =>
    let t : Transfer :=
      { id := s.db.nextTransferID
        from_account_id := p.from_account_id
        to_account_id := p.to_account_id
        amount := p.amount }
    .ok (t, { s' with db := { s'.db with transfers := s'.db.transfers ++ [t]
                                         nextTransferID := s'.db.nextTransferID + 1 } })

/-- Modelled from the spec: the generated CreateEntry query method is not
under src/; per the spec it is createEntry(accountID, amount) returning the
created Entry row.  It inserts one entry row with a fresh id and returns it. -/
def createEntry (qenv : QEnv) (p : CreateEntryParams) (s : TxState) :
    QRes Entry :=
  let s' : TxState :=
    { s with trace := s.trace ++ [RepoOp.createEntry p.account_id p.amount]
             step := s.step + 1 }
  match qenv s.step with
  | some e => .error (e, s')
  | none =>
    let en : Entry :=
      { id := s.db.nextEntryID
        account_id := p.account_id
        amount := p.amount }
    .ok (en, { s' with db := { s'.db with entries := s'.db.entries ++ [en]
                                          nextEntryID := s'.db.nextEntryID + 1 } })

/-- Apply the AddAccountBalance UPDATE to the accounts table:
UPDATE accounts SET balance = balance + amount WHERE id = id. -/
def applyAdd (accs : List Account) (id amount : Int) : List Account :=
  accs.map (fun a => if a.id = id then { a with balance := a.balance + amount } else a)

/-- The AddAccountBalance query of account.sql:
UPDATE accounts SET balance = balance + amount WHERE id = id RETURNING *.
A single atomic statement: the new balance is computed from the stored row,
and the post-adjustment row is returned; with no matching row the sqlc
:one wrapper yields sql.ErrNoRows. -/
def addAccountBalance (qenv : QEnv) (p : AddAccountBalanceParams) (s : TxState) :
    QRes Account :=
  let s' : TxState :=
    { s with trace := s.trace ++ [RepoOp.addAccountBalance p.id p.amount]
             step := s.step + 1 }
  match qenv s.step with
  | some e => .error (e, s')
  | none =>
    match s.db.accounts.find? (fun a => a.id = p.id) with
    | none => .error (GoError.noRows, s')
    | some a =>
      let a' : Account := { a with balance := a.balance + p.amount }
      .ok (a', { s' with db := { s'.db with accounts := applyAdd s'.db.accounts p.id p.amount } })

/-- The addMoney helper of store.go: adds amount1 to the account with
accountID1, then amount2 to the account with accountID2, returning both
post-adjustment rows in that order; an error from either call is returned. -/
def addMoney (qenv : QEnv) (accountID1 amount1 accountID2 amount2 : Int)
    (s : TxState) : QRes (Account × Account) :=
  match addAccountBalance qenv { id := accountID1, amount := amount1 } s with
  | .error es => .error es
  | .ok (account1, s) =>
    match addAccountBalance qenv { id := accountID2, amount := amount2 } s with
    | .error es => .error es
    | .ok (account2, s) => .ok ((account1, account2), s)

/-- Input parameters of the transfer transaction (store.go TransferTxParams). -/
structure TransferTxParams where
  from_account_id : Int
  to_account_id : Int
  amount : Int
deriving Repr, DecidableEq

/-- Result of the transfer transaction (store.go TransferTxResult): the
created transfer row, the post-adjustment sender and receiver rows, and the
outgoing and incoming entry rows. -/
structure TransferTxResult where
  transfer : Transfer
  from_account : Account
  to_account : Account
  from_entry : Entry
  to_entry : Entry
deriving Repr, DecidableEq

/-- The unit of work passed by TransferTx to execTx (the closure in
store.go): create the transfer record, create the outgoing entry with the
amount negated, create the incoming entry with the amount as given, then
adjust both balances, lower account id first; each step prints the
transaction name taken from the context under txKey, and any step error is
returned immediately. -/
def transferTxBody (qenv : QEnv) (txName : Option String)
    (arg : TransferTxParams) (s : TxState) : QRes TransferTxResult :=
  match createTransfer qenv
      { from_account_id := arg.from_account_id
        to_account_id := arg.to_account_id
        amount := arg.amount }
      (logPrint txName "create transfer" s) with
  | .error es => .error es
  | .ok (transfer, s) =>
    match createEntry qenv
        { account_id := arg.from_account_id, amount := -arg.amount }
        (logPrint txName "create entry 1" s) with
    | .error es => .error es
    | .ok (fromEntry, s) =>
      match createEntry qenv
          { account_id := arg.to_account_id, amount := arg.amount }
          (logPrint txName "create entry 2" s) with
      | .error es => .error es
      | .ok (toEntry, s) =>
        if arg.from_account_id < arg.to_account_id then
          match addMoney qenv arg.from_account_id (-arg.amount)
              arg.to_account_id arg.amount s with
          | .error es => .error es
          | .ok ((fromAccount, toAccount), s) =>
            .ok ({ transfer := transfer, from_account := fromAccount
                   to_account := toAccount, from_entry := fromEntry
                   to_entry := toEntry }, s)
        else
          match addMoney qenv arg.to_account_id arg.amount
              arg.from_account_id (-arg.amount) s with
          | .error es => .error es
          | .ok ((toAccount, fromAccount), s) =>
            .ok ({ transfer := transfer, from_account := fromAccount
                   to_account := toAccount, from_entry := fromEntry
                   to_entry := toEntry }, s)

/-- The execTx method of store.go: begin a transaction (a begin error is
returned as is), run the unit of work; on success commit (a commit error is
surfaced unmodified and nothing is persisted); on failure roll back, and if
rollback itself fails return the composite of the work error and the
rollback error, otherwise return the work error.  The components returned
are the error, the value produced by the unit of work when it succeeded, the
persisted database, and the final transaction-local state (for its trace and
print log). -/
def execTx {α : Type} (tenv : TxEnv)
    (fn : TxState → QRes α) (db : DB) :
    Option GoError × Option α × DB × TxState :=
  match tenv.beginErr with
  | some e => (some e, none, db, TxState.init db)
  | none =>
    match fn (TxState.init db) with
    | .ok (a, s) =>
      match tenv.commitErr with
      | some e => (some e, some a, db, s)
      | none => (none, some a, s.db, s)
    | .error (e, s) =>
      match tenv.rollbackErr with
      | some rbErr => (some (GoError.composite e rbErr), none, db, s)
      | none => (some e, none, db, s)

/-- Observable outcome of one TransferTx call: the result when the workflow
and the commit succeeded, the returned error, the persisted database, the
trace of issued repository operations, and the print log. -/
structure TransferTxOutcome where
  result : Option TransferTxResult
  error : Option GoError
  db : DB
  trace : List RepoOp
  prints : List (Option String × String)
deriving Repr, DecidableEq

/-- The TransferTx method of store.go: run the five-step transfer workflow
inside one execTx invocation.  The txName argument is the value stored in
the context under txKey. -/
def TransferTx (tenv : TxEnv) (qenv : QEnv) (txName : Option String)
    (arg : TransferTxParams) (db : DB) : TransferTxOutcome :=
  match execTx tenv (transferTxBody qenv txName arg) db with
  | (err, res, db', s) =>
    { result := res, error := err, db := db', trace := s.trace, prints := s.prints }

/-- Balance of the account with the given id, if present. -/
def bal (accs : List Account) (id : Int) : Option Int :=
  (accs.find? (fun a => a.id = id)).map (fun a => a.balance)

/-- Account ids of the AddAccountBalance operations of a trace, in order. -/
def adjustedIds (trace : List RepoOp) : List Int :=
  trace.filterMap (fun op =>
    match op with
    | RepoOp.addAccountBalance id _ => some id
    | _ => none)

/-- State component of a repository-call outcome (the state at the point of
failure, or the post-call state). -/
def QRes.state {α : Type} : QRes α → TxState
  | .ok (_, s) => s
  | .error (_, s) => s

/-- Equality of transaction states up to the diagnostic print log. -/
def coreEq (s1 s2 : TxState) : Prop :=
  s1.db = s2.db ∧ s1.trace = s2.trace ∧ s1.step = s2.step

/-- Equality of repository-call outcomes up to the print logs of their
states: same constructor, same value or error, and core-equal states. -/
def QResEquiv {α : Type} : QRes α → QRes α → Prop
  | .ok (a1, t1), .ok (a2, t2) => a1 = a2 ∧ coreEq t1 t2
  | .error (e1, t1), .error (e2, t2) => e1 = e2 ∧ coreEq t1 t2
  | _, _ => False

/-- Two-account database used to instantiate the theorems. -/
def dbTwo : DB :=
  { accounts := [{ id := 1, owner := "alice", balance := 100, currency := "USD" },
                 { id := 2, owner := "bob", balance := 50, currency := "USD" }]
    entries := [], transfers := [], nextEntryID := 1, nextTransferID := 1 }

/-- Transaction environment in which begin, commit and rollback all succeed. -/
def okTxEnv : TxEnv := { beginErr := none, commitErr := none, rollbackErr := none }

/-- Fault environment injecting no errors. -/
def noFaults : QEnv := fun _ => none

/-- Fault environment injecting a driver error at the given call position. -/
def failAt (j : Nat) : QEnv := fun n => if n = j then some (GoError.errMsg 7) else none

namespace Lemmas

theorem logPrint_db (l : Option String) (m : String) (s : TxState) :
    (logPrint l m s).db = s.db := rfl

theorem logPrint_trace (l : Option String) (m : String) (s : TxState) :
    (logPrint l m s).trace = s.trace := rfl

theorem logPrint_step (l : Option String) (m : String) (s : TxState) :
    (logPrint l m s).step = s.step := rfl

theorem logPrint_prints (l : Option String) (m : String) (s : TxState) :
    (logPrint l m s).prints = s.prints ++ [(l, m)] := rfl

theorem applyAdd_id_pred (i j amount : Int) :
    ((fun a : Account => decide (a.id = j)) ∘
        (fun a : Account => if a.id = i then { a with balance := a.balance + amount } else a)) =
      fun a : Account => decide (a.id = j) := by
  funext a
  by_cases hx : a.id = i <;> simp [hx]

theorem find_applyAdd_self (accs : List Account) (i amount : Int) :
    (applyAdd accs i amount).find? (fun a => a.id = i) =
      (accs.find? (fun a => a.id = i)).map
        (fun a => { a with balance := a.balance + amount }) := by
  unfold applyAdd
  rw [List.find?_map, applyAdd_id_pred]
  cases hf : accs.find? (fun a => decide (a.id = i)) with
  | none => rfl
  | some a =>
    have ha : a.id = i := by simpa using List.find?_some hf
    simp [ha]

theorem find_applyAdd_other (accs : List Account) (i j amount : Int) (h : j ≠ i) :
    (applyAdd accs i amount).find? (fun a => a.id = j) =
      accs.find? (fun a => a.id = j) := by
  unfold applyAdd
  rw [List.find?_map, applyAdd_id_pred]
  cases hf : accs.find? (fun a => decide (a.id = j)) with
  | none => rfl
  | some a =>
    have ha : a.id = j := by simpa using List.find?_some hf
    have hai : ¬ a.id = i := by rw [ha]; exact h
    simp [hai]

theorem bal_applyAdd_self (accs : List Account) (i amount : Int) :
    bal (applyAdd accs i amount) i = (bal accs i).map (fun b => b + amount) := by
  simp only [bal, find_applyAdd_self]
  cases accs.find? (fun a => a.id = i) <;> rfl

theorem bal_applyAdd_other (accs : List Account) (i j amount : Int) (h : j ≠ i) :
    bal (applyAdd accs i amount) j = bal accs j := by
  simp only [bal, find_applyAdd_other accs i j amount h]

theorem createTransfer_run_err {qenv : QEnv} {s : TxState} {e : GoError}
    (h : qenv s.step = some e) (p : CreateTransferParams) :
    createTransfer qenv p s =
      .error (e, { s with trace := s.trace ++ [RepoOp.createTransfer p.from_account_id p.to_account_id p.amount]
                          step := s.step + 1 }) := by
  simp [createTransfer, h]

theorem createTransfer_run_ok {qenv : QEnv} {s : TxState}
    (h : qenv s.step = none) (p : CreateTransferParams) :
    createTransfer qenv p s =
      .ok ({ id := s.db.nextTransferID
             from_account_id := p.from_account_id
             to_account_id := p.to_account_id
             amount := p.amount },
           { db := { accounts := s.db.accounts
                     entries := s.db.entries
                     transfers := s.db.transfers ++
                       [{ id := s.db.nextTransferID
                          from_account_id := p.from_account_id
                          to_account_id := p.to_account_id
                          amount := p.amount }]
                     nextEntryID := s.db.nextEntryID
                     nextTransferID := s.db.nextTransferID + 1 }
             trace := s.trace ++ [RepoOp.createTransfer p.from_account_id p.to_account_id p.amount]
             step := s.step + 1
             prints := s.prints }) := by
  simp [createTransfer, h]

theorem createTransfer_ok_inv {qenv : QEnv} {p : CreateTransferParams}
    {s : TxState} {t : Transfer} {s1 : TxState}
    (h : createTransfer qenv p s = .ok (t, s1)) :
    qenv s.step = none ∧
    t = { id := s.db.nextTransferID
          from_account_id := p.from_account_id
          to_account_id := p.to_account_id
          amount := p.amount } ∧
    s1 = { db := { accounts := s.db.accounts
                   entries := s.db.entries
                   transfers := s.db.transfers ++ [t]
                   nextEntryID := s.db.nextEntryID
                   nextTransferID := s.db.nextTransferID + 1 }
           trace := s.trace ++ [RepoOp.createTransfer p.from_account_id p.to_account_id p.amount]
           step := s.step + 1
           prints := s.prints } := by
  cases hq : qenv s.step with
  | some e => rw [createTransfer_run_err hq] at h; simp at h
  | none =>
    rw [createTransfer_run_ok hq] at h
    obtain ⟨ht, hs⟩ := Prod.mk.inj (Except.ok.inj h)
    subst ht
    subst hs
    exact ⟨rfl, rfl, rfl⟩

theorem createEntry_run_err {qenv : QEnv} {s : TxState} {e : GoError}
    (h : qenv s.step = some e) (p : CreateEntryParams) :
    createEntry qenv p s =
      .error (e, { s with trace := s.trace ++ [RepoOp.createEntry p.account_id p.amount]
                          step := s.step + 1 }) := by
  simp [createEntry, h]

theorem createEntry_run_ok {qenv : QEnv} {s : TxState}
    (h : qenv s.step = none) (p : CreateEntryParams) :
    createEntry qenv p s =
      .ok ({ id := s.db.nextEntryID
             account_id := p.account_id
             amount := p.amount },
           { db := { accounts := s.db.accounts
                     entries := s.db.entries ++
                       [{ id := s.db.nextEntryID
                          account_id := p.account_id
                          amount := p.amount }]
                     transfers := s.db.transfers
                     nextEntryID := s.db.nextEntryID + 1
                     nextTransferID := s.db.nextTransferID }
             trace := s.trace ++ [RepoOp.createEntry p.account_id p.amount]
             step := s.step + 1
             prints := s.prints }) := by
  simp [createEntry, h]

theorem createEntry_ok_inv {qenv : QEnv} {p : CreateEntryParams}
    {s : TxState} {en : Entry} {s1 : TxState}
    (h : createEntry qenv p s = .ok (en, s1)) :
    qenv s.step = none ∧
    en = { id := s.db.nextEntryID
           account_id := p.account_id
           amount := p.amount } ∧
    s1 = { db := { accounts := s.db.accounts
                   entries := s.db.entries ++ [en]
                   transfers := s.db.transfers
                   nextEntryID := s.db.nextEntryID + 1
                   nextTransferID := s.db.nextTransferID }
           trace := s.trace ++ [RepoOp.createEntry p.account_id p.amount]
           step := s.step + 1
           prints := s.prints } := by
  cases hq : qenv s.step with
  | some e => rw [createEntry_run_err hq] at h; simp at h
  | none =>
    rw [createEntry_run_ok hq] at h
    obtain ⟨ht, hs⟩ := Prod.mk.inj (Except.ok.inj h)
    subst ht
    subst hs
    exact ⟨rfl, rfl, rfl⟩

theorem addAccountBalance_run_err {qenv : QEnv} {s : TxState} {e : GoError}
    (h : qenv s.step = some e) (p : AddAccountBalanceParams) :
    addAccountBalance qenv p s =
      .error (e, { s with trace := s.trace ++ [RepoOp.addAccountBalance p.id p.amount]
                          step := s.step + 1 }) := by
  simp [addAccountBalance, h]

theorem addAccountBalance_run_noRows {qenv : QEnv} {s : TxState}
    (h : qenv s.step = none) (p : AddAccountBalanceParams)
    (hf : s.db.accounts.find? (fun a => a.id = p.id) = none) :
    addAccountBalance qenv p s =
      .error (GoError.noRows,
              { s with trace := s.trace ++ [RepoOp.addAccountBalance p.id p.amount]
                       step := s.step + 1 }) := by
  simp [addAccountBalance, h, hf]

theorem addAccountBalance_run_ok {qenv : QEnv} {s : TxState} {a0 : Account}
    (h : qenv s.step = none) (p : AddAccountBalanceParams)
    (hf : s.db.accounts.find? (fun a => a.id = p.id) = some a0) :
    addAccountBalance qenv p s =
      .ok ({ a0 with balance := a0.balance + p.amount },
           { db := { accounts := applyAdd s.db.accounts p.id p.amount
                     entries := s.db.entries
                     transfers := s.db.transfers
                     nextEntryID := s.db.nextEntryID
                     nextTransferID := s.db.nextTransferID }
             trace := s.trace ++ [RepoOp.addAccountBalance p.id p.amount]
             step := s.step + 1
             prints := s.prints }) := by
  simp [addAccountBalance, h, hf]

theorem addAccountBalance_ok_inv {qenv : QEnv} {p : AddAccountBalanceParams}
    {s : TxState} {a : Account} {s1 : TxState}
    (h : addAccountBalance qenv p s = .ok (a, s1)) :
    qenv s.step = none ∧
    ∃ a0, s.db.accounts.find? (fun x => x.id = p.id) = some a0 ∧
      a = { a0 with balance := a0.balance + p.amount } ∧
      s1 = { db := { accounts := applyAdd s.db.accounts p.id p.amount
                     entries := s.db.entries
                     transfers := s.db.transfers
                     nextEntryID := s.db.nextEntryID
                     nextTransferID := s.db.nextTransferID }
             trace := s.trace ++ [RepoOp.addAccountBalance p.id p.amount]
             step := s.step + 1
             prints := s.prints } := by
  cases hq : qenv s.step with
  | some e => rw [addAccountBalance_run_err hq] at h; simp at h
  | none =>
    cases hf : s.db.accounts.find? (fun x => x.id = p.id) with
    | none => rw [addAccountBalance_run_noRows hq p hf] at h; simp at h
    | some a0 =>
      rw [addAccountBalance_run_ok hq p hf] at h
      obtain ⟨ha, hs⟩ := Prod.mk.inj (Except.ok.inj h)
      subst ha
      subst hs
      exact ⟨rfl, a0, rfl, rfl, rfl⟩

theorem addMoney_ok_inv {qenv : QEnv} {a1 m1 a2 m2 : Int}
    {s : TxState} {acc1 acc2 : Account} {s1 : TxState}
    (h : addMoney qenv a1 m1 a2 m2 s = .ok ((acc1, acc2), s1)) :
    ∃ x1 x2,
      s.db.accounts.find? (fun x => x.id = a1) = some x1 ∧
      acc1 = { x1 with balance := x1.balance + m1 } ∧
      (applyAdd s.db.accounts a1 m1).find? (fun x => x.id = a2) = some x2 ∧
      acc2 = { x2 with balance := x2.balance + m2 } ∧
      s1 = { db := { accounts := applyAdd (applyAdd s.db.accounts a1 m1) a2 m2
                     entries := s.db.entries
                     transfers := s.db.transfers
                     nextEntryID := s.db.nextEntryID
                     nextTransferID := s.db.nextTransferID }
             trace := s.trace ++ [RepoOp.addAccountBalance a1 m1, RepoOp.addAccountBalance a2 m2]
             step := s.step + 2
             prints := s.prints } := by
  unfold addMoney at h
  split at h
  · simp at h
  · rename_i accA sA heq1
    obtain ⟨hq1, x1, hf1, hb1, hs1⟩ := addAccountBalance_ok_inv heq1
    subst hs1
    split at h
    · simp at h
    · rename_i accB sB heq2
      obtain ⟨hq2, x2, hf2, hb2, hs2⟩ := addAccountBalance_ok_inv heq2
      subst hs2
      obtain ⟨hpair, hsfin⟩ := Prod.mk.inj (Except.ok.inj h)
      obtain ⟨hacc1, hacc2⟩ := Prod.mk.inj hpair
      subst hacc1
      subst hacc2
      subst hb1
      subst hb2
      refine ⟨x1, x2, hf1, rfl, ?_, rfl, ?_⟩
      · simpa using hf2
      · rw [← hsfin]
        simp

theorem transferTxBody_ok_inv {qenv : QEnv} {l : Option String} {arg : TransferTxParams}
    {s : TxState} {r : TransferTxResult} {s1 : TxState}
    (h : transferTxBody qenv l arg s = .ok (r, s1)) :
    r.transfer = { id := s.db.nextTransferID
                   from_account_id := arg.from_account_id
                   to_account_id := arg.to_account_id
                   amount := arg.amount } ∧
    r.from_entry = { id := s.db.nextEntryID
                     account_id := arg.from_account_id
                     amount := -arg.amount } ∧
    r.to_entry = { id := s.db.nextEntryID + 1
                   account_id := arg.to_account_id
                   amount := arg.amount } ∧
    s1.db.transfers = s.db.transfers ++ [r.transfer] ∧
    s1.db.entries = s.db.entries ++ [r.from_entry, r.to_entry] ∧
    s1.db.nextEntryID = s.db.nextEntryID + 2 ∧
    s1.db.nextTransferID = s.db.nextTransferID + 1 ∧
    s1.step = s.step + 5 ∧
    s1.prints = s.prints ++ [(l, "create transfer"), (l, "create entry 1"), (l, "create entry 2")] ∧
    ((arg.from_account_id < arg.to_account_id ∧
      (∃ aF, s.db.accounts.find? (fun a => a.id = arg.from_account_id) = some aF ∧
        r.from_account = { aF with balance := aF.balance + -arg.amount }) ∧
      (∃ aT, (applyAdd s.db.accounts arg.from_account_id (-arg.amount)).find?
          (fun a => a.id = arg.to_account_id) = some aT ∧
        r.to_account = { aT with balance := aT.balance + arg.amount }) ∧
      s1.db.accounts = applyAdd (applyAdd s.db.accounts arg.from_account_id (-arg.amount))
        arg.to_account_id arg.amount ∧
      s1.trace = s.trace ++
        [RepoOp.createTransfer arg.from_account_id arg.to_account_id arg.amount,
         RepoOp.createEntry arg.from_account_id (-arg.amount),
         RepoOp.createEntry arg.to_account_id arg.amount,
         RepoOp.addAccountBalance arg.from_account_id (-arg.amount),
         RepoOp.addAccountBalance arg.to_account_id arg.amount]) ∨
     (¬ arg.from_account_id < arg.to_account_id ∧
      (∃ aT, s.db.accounts.find? (fun a => a.id = arg.to_account_id) = some aT ∧
        r.to_account = { aT with balance := aT.balance + arg.amount }) ∧
      (∃ aF, (applyAdd s.db.accounts arg.to_account_id arg.amount).find?
          (fun a => a.id = arg.from_account_id) = some aF ∧
        r.from_account = { aF with balance := aF.balance + -arg.amount }) ∧
      s1.db.accounts = applyAdd (applyAdd s.db.accounts arg.to_account_id arg.amount)
        arg.from_account_id (-arg.amount) ∧
      s1.trace = s.trace ++
        [RepoOp.createTransfer arg.from_account_id arg.to_account_id arg.amount,
         RepoOp.createEntry arg.from_account_id (-arg.amount),
         RepoOp.createEntry arg.to_account_id arg.amount,
         RepoOp.addAccountBalance arg.to_account_id arg.amount,
         RepoOp.addAccountBalance arg.from_account_id (-arg.amount)])) := by
  unfold transferTxBody at h
  split at h
  · simp at h
  · rename_i t sA heqT
    obtain ⟨hqT, ht, hsA⟩ := createTransfer_ok_inv heqT
    subst hsA
    split at h
    · simp at h
    · rename_i fe sB heqE1
      obtain ⟨hqE1, hfe, hsB⟩ := createEntry_ok_inv heqE1
      subst hsB
      split at h
      · simp at h
      · rename_i te sC heqE2
        obtain ⟨hqE2, hte, hsC⟩ := createEntry_ok_inv heqE2
        subst hsC
        by_cases hlt : arg.from_account_id < arg.to_account_id
        · rw [if_pos hlt] at h
          split at h
          · simp at h
          · rename_i accF accT sD heqM
            obtain ⟨x1, x2, hf1, hac1, hf2, hac2, hsD⟩ := addMoney_ok_inv heqM
            subst hsD
            obtain ⟨hr, hs1⟩ := Prod.mk.inj (Except.ok.inj h)
            subst hr
            subst hs1
            subst ht
            subst hfe
            subst hte
            subst hac1
            subst hac2
            refine ⟨?_, ?_, ?_, ?_, ?_, ?_, ?_, ?_, ?_,
              Or.inl ⟨hlt, ⟨x1, ?_, ?_⟩, ⟨x2, ?_, ?_⟩, ?_, ?_⟩⟩ <;>
              simp [logPrint] at hf1 hf2 ⊢ <;> first
              | rfl
              | omega
              | exact hf1
              | exact hf2
        · rw [if_neg hlt] at h
          split at h
          · simp at h
          · rename_i accT accF sD heqM
            obtain ⟨x1, x2, hf1, hac1, hf2, hac2, hsD⟩ := addMoney_ok_inv heqM
            subst hsD
            obtain ⟨hr, hs1⟩ := Prod.mk.inj (Except.ok.inj h)
            subst hr
            subst hs1
            subst ht
            subst hfe
            subst hte
            subst hac1
            subst hac2
            refine ⟨?_, ?_, ?_, ?_, ?_, ?_, ?_, ?_, ?_,
              Or.inr ⟨hlt, ⟨x1, ?_, ?_⟩, ⟨x2, ?_, ?_⟩, ?_, ?_⟩⟩ <;>
              simp [logPrint] at hf1 hf2 ⊢ <;> first
              | rfl
              | omega
              | exact hf1
              | exact hf2

theorem createTransfer_err_inv {qenv : QEnv} {p : CreateTransferParams}
    {s : TxState} {e : GoError} {s1 : TxState}
    (h : createTransfer qenv p s = .error (e, s1)) :
    s1.trace = s.trace ++ [RepoOp.createTransfer p.from_account_id p.to_account_id p.amount] := by
  cases hq : qenv s.step with
  | some e0 =>
    rw [createTransfer_run_err hq] at h
    obtain ⟨-, hs⟩ := Prod.mk.inj (Except.error.inj h)
    rw [← hs]
  | none => rw [createTransfer_run_ok hq] at h; simp at h

theorem createEntry_err_inv {qenv : QEnv} {p : CreateEntryParams}
    {s : TxState} {e : GoError} {s1 : TxState}
    (h : createEntry qenv p s = .error (e, s1)) :
    s1.trace = s.trace ++ [RepoOp.createEntry p.account_id p.amount] := by
  cases hq : qenv s.step with
  | some e0 =>
    rw [createEntry_run_err hq] at h
    obtain ⟨-, hs⟩ := Prod.mk.inj (Except.error.inj h)
    rw [← hs]
  | none => rw [createEntry_run_ok hq] at h; simp at h

theorem addAccountBalance_err_inv {qenv : QEnv} {p : AddAccountBalanceParams}
    {s : TxState} {e : GoError} {s1 : TxState}
    (h : addAccountBalance qenv p s = .error (e, s1)) :
    s1.trace = s.trace ++ [RepoOp.addAccountBalance p.id p.amount] := by
  cases hq : qenv s.step with
  | some e0 =>
    rw [addAccountBalance_run_err hq] at h
    obtain ⟨-, hs⟩ := Prod.mk.inj (Except.error.inj h)
    rw [← hs]
  | none =>
    cases hf : s.db.accounts.find? (fun x => x.id = p.id) with
    | none =>
      rw [addAccountBalance_run_noRows hq p hf] at h
      obtain ⟨-, hs⟩ := Prod.mk.inj (Except.error.inj h)
      rw [← hs]
    | some a0 => rw [addAccountBalance_run_ok hq p hf] at h; simp at h

theorem addMoney_err_inv {qenv : QEnv} {a1 m1 a2 m2 : Int}
    {s : TxState} {e : GoError} {s1 : TxState}
    (h : addMoney qenv a1 m1 a2 m2 s = .error (e, s1)) :
    s1.trace = s.trace ++ [RepoOp.addAccountBalance a1 m1] ∨
    s1.trace = s.trace ++ [RepoOp.addAccountBalance a1 m1, RepoOp.addAccountBalance a2 m2] := by
  unfold addMoney at h
  split at h
  · rename_i es heq1
    obtain ⟨e0, sE⟩ := es
    obtain ⟨he, hs⟩ := Prod.mk.inj (Except.error.inj h)
    subst hs
    exact Or.inl (addAccountBalance_err_inv heq1)
  · rename_i accA sA heq1
    obtain ⟨hq1, x1, hf1, hb1, hs1⟩ := addAccountBalance_ok_inv heq1
    subst hs1
    split at h
    · rename_i es heq2
      obtain ⟨e0, sE⟩ := es
      obtain ⟨he, hs⟩ := Prod.mk.inj (Except.error.inj h)
      subst hs
      have h2 := addAccountBalance_err_inv heq2
      refine Or.inr ?_
      rw [h2]
      simp
    · simp at h

theorem transferTxBody_adjusted (qenv : QEnv) (l : Option String)
    (arg : TransferTxParams) (s : TxState) :
    ∃ X, adjustedIds ((transferTxBody qenv l arg s).state).trace =
        adjustedIds s.trace ++ X ∧
      (X = [] ∨
       X = [if arg.from_account_id < arg.to_account_id then arg.from_account_id
            else arg.to_account_id] ∨
       X = [if arg.from_account_id < arg.to_account_id then arg.from_account_id
            else arg.to_account_id,
            if arg.from_account_id < arg.to_account_id then arg.to_account_id
            else arg.from_account_id]) := by
  unfold transferTxBody
  split
  · rename_i es heq
    obtain ⟨e, sE⟩ := es
    have h1 := createTransfer_err_inv heq
    refine ⟨[], ?_, Or.inl rfl⟩
    simp [QRes.state, h1, logPrint, adjustedIds, List.filterMap_append]
  · rename_i t sA heq
    obtain ⟨hqT, ht, hsA⟩ := createTransfer_ok_inv heq
    subst hsA
    split
    · rename_i es heq1
      obtain ⟨e, sE⟩ := es
      have h1 := createEntry_err_inv heq1
      refine ⟨[], ?_, Or.inl rfl⟩
      simp [QRes.state, h1, logPrint, adjustedIds, List.filterMap_append]
    · rename_i fe sB heq1
      obtain ⟨hqE1, hfe, hsB⟩ := createEntry_ok_inv heq1
      subst hsB
      split
      · rename_i es heq2
        obtain ⟨e, sE⟩ := es
        have h2 := createEntry_err_inv heq2
        refine ⟨[], ?_, Or.inl rfl⟩
        simp [QRes.state, h2, logPrint, adjustedIds, List.filterMap_append]
      · rename_i te sC heq2
        obtain ⟨hqE2, hte, hsC⟩ := createEntry_ok_inv heq2
        subst hsC
        by_cases hlt : arg.from_account_id < arg.to_account_id
        · rw [if_pos hlt]
          split
          · rename_i es heqM
            obtain ⟨e, sE⟩ := es
            rcases addMoney_err_inv heqM with hm | hm
            · refine ⟨[arg.from_account_id], ?_, Or.inr (Or.inl (by rw [if_pos hlt]))⟩
              simp [QRes.state, hm, logPrint, adjustedIds, List.filterMap_append]
            · refine ⟨[arg.from_account_id, arg.to_account_id], ?_,
                Or.inr (Or.inr (by rw [if_pos hlt, if_pos hlt]))⟩
              simp [QRes.state, hm, logPrint, adjustedIds, List.filterMap_append]
          · rename_i accF accT sD heqM
            obtain ⟨x1, x2, hf1, hac1, hf2, hac2, hsD⟩ := addMoney_ok_inv heqM
            subst hsD
            refine ⟨[arg.from_account_id, arg.to_account_id], ?_,
              Or.inr (Or.inr (by rw [if_pos hlt, if_pos hlt]))⟩
            simp [QRes.state, logPrint, adjustedIds, List.filterMap_append]
        · rw [if_neg hlt]
          split
          · rename_i es heqM
            obtain ⟨e, sE⟩ := es
            rcases addMoney_err_inv heqM with hm | hm
            · refine ⟨[arg.to_account_id], ?_, Or.inr (Or.inl (by rw [if_neg hlt]))⟩
              simp [QRes.state, hm, logPrint, adjustedIds, List.filterMap_append]
            · refine ⟨[arg.to_account_id, arg.from_account_id], ?_,
                Or.inr (Or.inr (by rw [if_neg hlt, if_neg hlt]))⟩
              simp [QRes.state, hm, logPrint, adjustedIds, List.filterMap_append]
          · rename_i accT accF sD heqM
            obtain ⟨x1, x2, hf1, hac1, hf2, hac2, hsD⟩ := addMoney_ok_inv heqM
            subst hsD
            refine ⟨[arg.to_account_id, arg.from_account_id], ?_,
              Or.inr (Or.inr (by rw [if_neg hlt, if_neg hlt]))⟩
            simp [QRes.state, logPrint, adjustedIds, List.filterMap_append]

theorem coreEq_logPrint {s1 s2 : TxState} (l1 l2 : Option String) (m1 m2 : String)
    (h : coreEq s1 s2) : coreEq (logPrint l1 m1 s1) (logPrint l2 m2 s2) := by
  obtain ⟨hdb, htr, hst⟩ := h
  exact ⟨hdb, htr, hst⟩

theorem createTransfer_congr (qenv : QEnv) (p : CreateTransferParams)
    {s1 s2 : TxState} (h : coreEq s1 s2) :
    QResEquiv (createTransfer qenv p s1) (createTransfer qenv p s2) := by
  obtain ⟨hdb, htr, hst⟩ := h
  unfold createTransfer
  rw [hdb, htr, hst]
  cases hq : qenv s2.step <;>
    exact ⟨rfl, rfl, rfl, rfl⟩

theorem createEntry_congr (qenv : QEnv) (p : CreateEntryParams)
    {s1 s2 : TxState} (h : coreEq s1 s2) :
    QResEquiv (createEntry qenv p s1) (createEntry qenv p s2) := by
  obtain ⟨hdb, htr, hst⟩ := h
  unfold createEntry
  rw [hdb, htr, hst]
  cases hq : qenv s2.step <;>
    exact ⟨rfl, rfl, rfl, rfl⟩

theorem addAccountBalance_congr (qenv : QEnv) (p : AddAccountBalanceParams)
    {s1 s2 : TxState} (h : coreEq s1 s2) :
    QResEquiv (addAccountBalance qenv p s1) (addAccountBalance qenv p s2) := by
  obtain ⟨hdb, htr, hst⟩ := h
  unfold addAccountBalance
  rw [hdb, htr, hst]
  cases hq : qenv s2.step
  · cases hf : s2.db.accounts.find? (fun a => a.id = p.id) <;>
      exact ⟨rfl, rfl, rfl, rfl⟩
  · exact ⟨rfl, rfl, rfl, rfl⟩

theorem addMoney_congr (qenv : QEnv) (a1 m1 a2 m2 : Int)
    {s1 s2 : TxState} (h : coreEq s1 s2) :
    QResEquiv (addMoney qenv a1 m1 a2 m2 s1) (addMoney qenv a1 m1 a2 m2 s2) := by
  have h1 := addAccountBalance_congr qenv { id := a1, amount := m1 } h
  unfold addMoney
  cases hA : addAccountBalance qenv { id := a1, amount := m1 } s1 with
  | error es1 =>
    obtain ⟨e1, t1⟩ := es1
    cases hB : addAccountBalance qenv { id := a1, amount := m1 } s2 with
    | error es2 =>
      obtain ⟨e2, t2⟩ := es2
      rw [hA, hB] at h1
      exact h1
    | ok v2 =>
      obtain ⟨b2, t2⟩ := v2
      rw [hA, hB] at h1
      exact h1.elim
  | ok v1 =>
    obtain ⟨b1, t1⟩ := v1
    cases hB : addAccountBalance qenv { id := a1, amount := m1 } s2 with
    | error es2 =>
      obtain ⟨e2, t2⟩ := es2
      rw [hA, hB] at h1
      exact h1.elim
    | ok v2 =>
      obtain ⟨b2, t2⟩ := v2
      rw [hA, hB] at h1
      obtain ⟨hb, hcore⟩ := h1
      subst hb
      dsimp only
      have h2 := addAccountBalance_congr qenv { id := a2, amount := m2 } hcore
      cases hC : addAccountBalance qenv { id := a2, amount := m2 } t1 with
      | error es1 =>
        obtain ⟨e1, u1⟩ := es1
        cases hD : addAccountBalance qenv { id := a2, amount := m2 } t2 with
        | error es2 =>
          obtain ⟨e2, u2⟩ := es2
          rw [hC, hD] at h2
          exact h2
        | ok w2 =>
          obtain ⟨c2, u2⟩ := w2
          rw [hC, hD] at h2
          exact h2.elim
      | ok w1 =>
        obtain ⟨c1, u1⟩ := w1
        cases hD : addAccountBalance qenv { id := a2, amount := m2 } t2 with
        | error es2 =>
          obtain ⟨e2, u2⟩ := es2
          rw [hC, hD] at h2
          exact h2.elim
        | ok w2 =>
          obtain ⟨c2, u2⟩ := w2
          rw [hC, hD] at h2
          obtain ⟨hc, hcore2⟩ := h2
          subst hc
          exact ⟨rfl, hcore2⟩

theorem transferTxBody_congr (qenv : QEnv) (l1 l2 : Option String)
    (arg : TransferTxParams) {s1 s2 : TxState} (h : coreEq s1 s2) :
    QResEquiv (transferTxBody qenv l1 arg s1) (transferTxBody qenv l2 arg s2) := by
  have h1 := createTransfer_congr qenv
    { from_account_id := arg.from_account_id
      to_account_id := arg.to_account_id
      amount := arg.amount }
    (coreEq_logPrint l1 l2 "create transfer" "create transfer" h)
  unfold transferTxBody
  cases hA : createTransfer qenv
      { from_account_id := arg.from_account_id
        to_account_id := arg.to_account_id
        amount := arg.amount } (logPrint l1 "create transfer" s1) with
  | error es1 =>
    obtain ⟨e1, t1⟩ := es1
    cases hB : createTransfer qenv
        { from_account_id := arg.from_account_id
          to_account_id := arg.to_account_id
          amount := arg.amount } (logPrint l2 "create transfer" s2) with
    | error es2 =>
      obtain ⟨e2, t2⟩ := es2
      rw [hA, hB] at h1
      exact h1
    | ok v2 =>
      obtain ⟨b2, t2⟩ := v2
      rw [hA, hB] at h1
      exact h1.elim
  | ok v1 =>
    obtain ⟨t, t1⟩ := v1
    cases hB : createTransfer qenv
        { from_account_id := arg.from_account_id
          to_account_id := arg.to_account_id
          amount := arg.amount } (logPrint l2 "create transfer" s2) with
    | error es2 =>
      obtain ⟨e2, t2⟩ := es2
      rw [hA, hB] at h1
      exact h1.elim
    | ok v2 =>
      obtain ⟨t', t2⟩ := v2
      rw [hA, hB] at h1
      obtain ⟨hteq, hcore1⟩ := h1
      subst hteq
      dsimp only
      have h2 := createEntry_congr qenv
        { account_id := arg.from_account_id, amount := -arg.amount }
        (coreEq_logPrint l1 l2 "create entry 1" "create entry 1" hcore1)
      cases hC : createEntry qenv
          { account_id := arg.from_account_id, amount := -arg.amount }
          (logPrint l1 "create entry 1" t1) with
      | error es1 =>
        obtain ⟨e1, u1⟩ := es1
        cases hD : createEntry qenv
            { account_id := arg.from_account_id, amount := -arg.amount }
            (logPrint l2 "create entry 1" t2) with
        | error es2 =>
          obtain ⟨e2, u2⟩ := es2
          rw [hC, hD] at h2
          exact h2
        | ok w2 =>
          obtain ⟨c2, u2⟩ := w2
          rw [hC, hD] at h2
          exact h2.elim
      | ok w1 =>
        obtain ⟨fe, u1⟩ := w1
        cases hD : createEntry qenv
            { account_id := arg.from_account_id, amount := -arg.amount }
            (logPrint l2 "create entry 1" t2) with
        | error es2 =>
          obtain ⟨e2, u2⟩ := es2
          rw [hC, hD] at h2
          exact h2.elim
        | ok w2 =>
          obtain ⟨fe', u2⟩ := w2
          rw [hC, hD] at h2
          obtain ⟨hfeq, hcore2⟩ := h2
          subst hfeq
          dsimp only
          have h3 := createEntry_congr qenv
            { account_id := arg.to_account_id, amount := arg.amount }
            (coreEq_logPrint l1 l2 "create entry 2" "create entry 2" hcore2)
          cases hE : createEntry qenv
              { account_id := arg.to_account_id, amount := arg.amount }
              (logPrint l1 "create entry 2" u1) with
          | error es1 =>
            obtain ⟨e1, w1⟩ := es1
            cases hF : createEntry qenv
                { account_id := arg.to_account_id, amount := arg.amount }
                (logPrint l2 "create entry 2" u2) with
            | error es2 =>
              obtain ⟨e2, w2⟩ := es2
              rw [hE, hF] at h3
              exact h3
            | ok y2 =>
              obtain ⟨c2, w2⟩ := y2
              rw [hE, hF] at h3
              exact h3.elim
          | ok y1 =>
            obtain ⟨te, w1⟩ := y1
            cases hF : createEntry qenv
                { account_id := arg.to_account_id, amount := arg.amount }
                (logPrint l2 "create entry 2" u2) with
            | error es2 =>
              obtain ⟨e2, w2⟩ := es2
              rw [hE, hF] at h3
              exact h3.elim
            | ok y2 =>
              obtain ⟨te', w2⟩ := y2
              rw [hE, hF] at h3
              obtain ⟨hteq2, hcore3⟩ := h3
              subst hteq2
              dsimp only
              by_cases hlt : arg.from_account_id < arg.to_account_id
              · rw [if_pos hlt, if_pos hlt]
                have h4 := addMoney_congr qenv arg.from_account_id (-arg.amount)
                  arg.to_account_id arg.amount hcore3
                cases hG : addMoney qenv arg.from_account_id (-arg.amount)
                    arg.to_account_id arg.amount w1 with
                | error es1 =>
                  obtain ⟨e1, z1⟩ := es1
                  cases hH : addMoney qenv arg.from_account_id (-arg.amount)
                      arg.to_account_id arg.amount w2 with
                  | error es2 =>
                    obtain ⟨e2, z2⟩ := es2
                    rw [hG, hH] at h4
                    exact h4
                  | ok p2 =>
                    obtain ⟨⟨c2, d2⟩, z2⟩ := p2
                    rw [hG, hH] at h4
                    exact h4.elim
                | ok p1 =>
                  obtain ⟨⟨c1, d1⟩, z1⟩ := p1
                  cases hH : addMoney qenv arg.from_account_id (-arg.amount)
                      arg.to_account_id arg.amount w2 with
                  | error es2 =>
                    obtain ⟨e2, z2⟩ := es2
                    rw [hG, hH] at h4
                    exact h4.elim
                  | ok p2 =>
                    obtain ⟨⟨c2, d2⟩, z2⟩ := p2
                    rw [hG, hH] at h4
                    obtain ⟨hpq, hcore4⟩ := h4
                    obtain ⟨hc, hd⟩ := Prod.mk.inj hpq
                    subst hc
                    subst hd
                    exact ⟨rfl, hcore4⟩
              · rw [if_neg hlt, if_neg hlt]
                have h4 := addMoney_congr qenv arg.to_account_id arg.amount
                  arg.from_account_id (-arg.amount) hcore3
                cases hG : addMoney qenv arg.to_account_id arg.amount
                    arg.from_account_id (-arg.amount) w1 with
                | error es1 =>
                  obtain ⟨e1, z1⟩ := es1
                  cases hH : addMoney qenv arg.to_account_id arg.amount
                      arg.from_account_id (-arg.amount) w2 with
                  | error es2 =>
                    obtain ⟨e2, z2⟩ := es2
                    rw [hG, hH] at h4
                    exact h4
                  | ok p2 =>
                    obtain ⟨⟨c2, d2⟩, z2⟩ := p2
                    rw [hG, hH] at h4
                    exact h4.elim
                | ok p1 =>
                  obtain ⟨⟨c1, d1⟩, z1⟩ := p1
                  cases hH : addMoney qenv arg.to_account_id arg.amount
                      arg.from_account_id (-arg.amount) w2 with
                  | error es2 =>
                    obtain ⟨e2, z2⟩ := es2
                    rw [hG, hH] at h4
                    exact h4.elim
                  | ok p2 =>
                    obtain ⟨⟨c2, d2⟩, z2⟩ := p2
                    rw [hG, hH] at h4
                    obtain ⟨hpq, hcore4⟩ := h4
                    obtain ⟨hc, hd⟩ := Prod.mk.inj hpq
                    subst hc
                    subst hd
                    exact ⟨rfl, hcore4⟩

theorem transferTx_error_none {tenv : TxEnv} {qenv : QEnv} {l : Option String}
    {arg : TransferTxParams} {db : DB}
    (h : (TransferTx tenv qenv l arg db).error = none) :
    ∃ r s1, transferTxBody qenv l arg (TxState.init db) = .ok (r, s1) ∧
      (TransferTx tenv qenv l arg db).result = some r ∧
      (TransferTx tenv qenv l arg db).db = s1.db ∧
      (TransferTx tenv qenv l arg db).trace = s1.trace := by
  cases hb : tenv.beginErr with
  | some e => simp [TransferTx, execTx, hb] at h
  | none =>
    cases hbd : transferTxBody qenv l arg (TxState.init db) with
    | error es =>
      obtain ⟨e, s1⟩ := es
      cases hrb : tenv.rollbackErr <;> simp [TransferTx, execTx, hb, hbd, hrb] at h
    | ok v =>
      obtain ⟨r, s1⟩ := v
      cases hc : tenv.commitErr with
      | some e => simp [TransferTx, execTx, hb, hbd, hc] at h
      | none => exact ⟨r, s1, rfl, by simp [TransferTx, execTx, hb, hbd, hc]⟩

theorem transferTx_error_db {tenv : TxEnv} {qenv : QEnv} {l : Option String}
    {arg : TransferTxParams} {db : DB}
    (h : (TransferTx tenv qenv l arg db).error ≠ none) :
    (TransferTx tenv qenv l arg db).db = db := by
  cases hb : tenv.beginErr with
  | some e => simp [TransferTx, execTx, hb]
  | none =>
    cases hbd : transferTxBody qenv l arg (TxState.init db) with
    | error es =>
      obtain ⟨e, s1⟩ := es
      cases hrb : tenv.rollbackErr <;> simp [TransferTx, execTx, hb, hbd, hrb]
    | ok v =>
      obtain ⟨r, s1⟩ := v
      cases hc : tenv.commitErr with
      | some e => simp [TransferTx, execTx, hb, hbd, hc]
      | none => simp [TransferTx, execTx, hb, hbd, hc] at h

theorem transferTx_trace_cases (tenv : TxEnv) (qenv : QEnv) (l : Option String)
    (arg : TransferTxParams) (db : DB) :
    (TransferTx tenv qenv l arg db).trace = [] ∨
    (TransferTx tenv qenv l arg db).trace =
      ((transferTxBody qenv l arg (TxState.init db)).state).trace := by
  cases hb : tenv.beginErr with
  | some e => exact Or.inl (by simp [TransferTx, execTx, hb, TxState.init])
  | none =>
    cases hbd : transferTxBody qenv l arg (TxState.init db) with
    | error es =>
      obtain ⟨e, s1⟩ := es
      refine Or.inr ?_
      cases hrb : tenv.rollbackErr <;>
        simp [TransferTx, execTx, hb, hbd, hrb, QRes.state]
    | ok v =>
      obtain ⟨r, s1⟩ := v
      refine Or.inr ?_
      cases hc : tenv.commitErr <;>
        simp [TransferTx, execTx, hb, hbd, hc, QRes.state]

end Lemmas

/-- Claim C4: once the transaction has begun, execTx returns exactly the
following.  If the unit of work succeeds, the transaction is committed and
the commit outcome is surfaced unmodified: no error on successful commit
(and the state produced by the unit of work is persisted), and the commit
error itself otherwise.  If the unit of work fails and rollback succeeds,
the original error is returned unmodified; if rollback also fails, the
composite error of the original error and the rollback error is returned. -/
theorem claim_C4_execTx_error_contract {α : Type} (tenv : TxEnv)
    (fn : TxState → QRes α) (db : DB)
    (hb : tenv.beginErr = none) :
    (∀ a s, fn (TxState.init db) = .ok (a, s) →
      (tenv.commitErr = none →
        (execTx tenv fn db).1 = none ∧ (execTx tenv fn db).2.2.1 = s.db) ∧
      (∀ ce, tenv.commitErr = some ce → (execTx tenv fn db).1 = some ce)) ∧
    (∀ e s, fn (TxState.init db) = .error (e, s) →
      (tenv.rollbackErr = none → (execTx tenv fn db).1 = some e) ∧
      (∀ re, tenv.rollbackErr = some re →
        (execTx tenv fn db).1 = some (GoError.composite e re))) := by
  constructor
  · intro a s hfn
    constructor
    · intro hc
      simp [execTx, hb, hfn, hc]
    · intro ce hc
      simp [execTx, hb, hfn, hc]
  · intro e s hfn
    constructor
    · intro hrb
      simp [execTx, hb, hfn, hrb]
    · intro re hrb
      simp [execTx, hb, hfn, hrb]

/-- Witness for claim C4 at a concrete transaction environment, database and
unit of work. -/
theorem claim_C4_witness :
    (execTx { beginErr := none, commitErr := none, rollbackErr := none }
        (fun s => (.ok (0, s) : QRes Nat)) dbTwo).1 = none ∧
    (execTx { beginErr := none, commitErr := none, rollbackErr := some (GoError.errMsg 3) }
        (fun s => (.error (GoError.errMsg 1, s) : QRes Nat)) dbTwo).1 =
      some (GoError.composite (GoError.errMsg 1) (GoError.errMsg 3)) := by
  constructor
  · exact ((claim_C4_execTx_error_contract
      { beginErr := none, commitErr := none, rollbackErr := none }
      (fun s => (.ok (0, s) : QRes Nat)) dbTwo rfl).1 0 (TxState.init dbTwo) rfl).1 rfl |>.1
  · exact ((claim_C4_execTx_error_contract
      { beginErr := none, commitErr := none, rollbackErr := some (GoError.errMsg 3) }
      (fun s => (.error (GoError.errMsg 1, s) : QRes Nat)) dbTwo rfl).2
      (GoError.errMsg 1) (TxState.init dbTwo) rfl).2 (GoError.errMsg 3) rfl

/-- Claim C8: the balance-adjustment primitive used by the transfer workflow
is a single atomic add.  One successful AddAccountBalance call issues exactly
one repository operation (a single UPDATE statement, not a read followed by
a write), the new balance is computed from the stored row by adding the
delta, and the returned row is the post-adjustment row as stored (the row
found under the account id in the resulting state). -/
theorem claim_C8_atomic_add (qenv : QEnv) (p : AddAccountBalanceParams)
    (s : TxState) (a : Account) (s1 : TxState)
    (h : addAccountBalance qenv p s = .ok (a, s1)) :
    ∃ a0, s.db.accounts.find? (fun x => x.id = p.id) = some a0 ∧
      a.id = a0.id ∧
      a.balance = a0.balance + p.amount ∧
      s1.db.accounts.find? (fun x => x.id = p.id) = some a ∧
      s1.trace = s.trace ++ [RepoOp.addAccountBalance p.id p.amount] ∧
      s1.db.entries = s.db.entries ∧
      s1.db.transfers = s.db.transfers := by
  obtain ⟨hq, a0, hf, ha, hs⟩ := Lemmas.addAccountBalance_ok_inv h
  subst ha
  subst hs
  refine ⟨a0, hf, rfl, rfl, ?_, rfl, rfl, rfl⟩
  rw [show ({ db := { accounts := applyAdd s.db.accounts p.id p.amount
                      entries := s.db.entries
                      transfers := s.db.transfers
                      nextEntryID := s.db.nextEntryID
                      nextTransferID := s.db.nextTransferID }
              trace := s.trace ++ [RepoOp.addAccountBalance p.id p.amount]
              step := s.step + 1
              prints := s.prints } : TxState).db.accounts =
        applyAdd s.db.accounts p.id p.amount from rfl]
  rw [Lemmas.find_applyAdd_self, hf]
  rfl

/-- Witness for claim C8: a concrete successful balance adjustment. -/
theorem claim_C8_witness :
    ∃ a0, dbTwo.accounts.find? (fun x => x.id = (1 : Int)) = some a0 ∧
      ({ id := 1, owner := "alice", balance := 110, currency := "USD" } : Account).id = a0.id ∧
      ({ id := 1, owner := "alice", balance := 110, currency := "USD" } : Account).balance =
        a0.balance + 10 ∧
      ((addAccountBalance noFaults { id := 1, amount := 10 }
          (TxState.init dbTwo)).state).db.accounts.find? (fun x => x.id = (1 : Int)) =
        some { id := 1, owner := "alice", balance := 110, currency := "USD" } ∧
      ((addAccountBalance noFaults { id := 1, amount := 10 }
          (TxState.init dbTwo)).state).trace =
        (TxState.init dbTwo).trace ++ [RepoOp.addAccountBalance 1 10] ∧
      ((addAccountBalance noFaults { id := 1, amount := 10 }
          (TxState.init dbTwo)).state).db.entries = (TxState.init dbTwo).db.entries ∧
      ((addAccountBalance noFaults { id := 1, amount := 10 }
          (TxState.init dbTwo)).state).db.transfers = (TxState.init dbTwo).db.transfers :=
  claim_C8_atomic_add noFaults { id := 1, amount := 10 } (TxState.init dbTwo)
    { id := 1, owner := "alice", balance := 110, currency := "USD" }
    ((addAccountBalance noFaults { id := 1, amount := 10 } (TxState.init dbTwo)).state)
    rfl

/-- Claim C1: for every successful TransferTx call with distinct accounts
and positive amount, the source balance decreases by exactly the amount and
the destination balance increases by exactly the amount. -/
theorem claim_C1_balance_deltas (tenv : TxEnv) (qenv : QEnv) (l : Option String)
    (arg : TransferTxParams) (db : DB)
    (hne : arg.from_account_id ≠ arg.to_account_id)
    (hpos : 0 < arg.amount)
    (hok : (TransferTx tenv qenv l arg db).error = none) :
    ∃ sb sa tb ta,
      bal db.accounts arg.from_account_id = some sb ∧
      bal (TransferTx tenv qenv l arg db).db.accounts arg.from_account_id = some sa ∧
      bal db.accounts arg.to_account_id = some tb ∧
      bal (TransferTx tenv qenv l arg db).db.accounts arg.to_account_id = some ta ∧
      sb - sa = arg.amount ∧ ta - tb = arg.amount := by
  obtain ⟨r, s1, hbody, hres, hdb, htr⟩ := Lemmas.transferTx_error_none hok
  obtain ⟨-, -, -, -, -, -, -, -, -, hbr⟩ := Lemmas.transferTxBody_ok_inv hbody
  rw [hdb]
  rcases hbr with ⟨hlt, ⟨aF, hfF, -⟩, ⟨aT, hfT, -⟩, hacc, -⟩ |
    ⟨hlt, ⟨aT, hfT, -⟩, ⟨aF, hfF, -⟩, hacc, -⟩
  · have hfF0 : db.accounts.find? (fun a => a.id = arg.from_account_id) = some aF := by
      simpa [TxState.init] using hfF
    have hfT1 : (applyAdd db.accounts arg.from_account_id (-arg.amount)).find?
        (fun a => a.id = arg.to_account_id) = some aT := by
      simpa [TxState.init] using hfT
    have hfT0 : db.accounts.find? (fun a => a.id = arg.to_account_id) = some aT := by
      rw [Lemmas.find_applyAdd_other db.accounts arg.from_account_id arg.to_account_id
        (-arg.amount) (Ne.symm hne)] at hfT1
      exact hfT1
    have haccs : s1.db.accounts =
        applyAdd (applyAdd db.accounts arg.from_account_id (-arg.amount))
          arg.to_account_id arg.amount := by
      simpa [TxState.init] using hacc
    refine ⟨aF.balance, aF.balance + -arg.amount, aT.balance, aT.balance + arg.amount,
      ?_, ?_, ?_, ?_, by omega, by omega⟩
    · simp [bal, hfF0]
    · rw [haccs, Lemmas.bal_applyAdd_other _ _ _ _ hne, Lemmas.bal_applyAdd_self]
      simp [bal, hfF0]
    · simp [bal, hfT0]
    · rw [haccs, Lemmas.bal_applyAdd_self]
      simp [bal, hfT1]
  · have hfT0 : db.accounts.find? (fun a => a.id = arg.to_account_id) = some aT := by
      simpa [TxState.init] using hfT
    have hfF1 : (applyAdd db.accounts arg.to_account_id arg.amount).find?
        (fun a => a.id = arg.from_account_id) = some aF := by
      simpa [TxState.init] using hfF
    have hfF0 : db.accounts.find? (fun a => a.id = arg.from_account_id) = some aF := by
      rw [Lemmas.find_applyAdd_other db.accounts arg.to_account_id arg.from_account_id
        arg.amount hne] at hfF1
      exact hfF1
    have haccs : s1.db.accounts =
        applyAdd (applyAdd db.accounts arg.to_account_id arg.amount)
          arg.from_account_id (-arg.amount) := by
      simpa [TxState.init] using hacc
    refine ⟨aF.balance, aF.balance + -arg.amount, aT.balance, aT.balance + arg.amount,
      ?_, ?_, ?_, ?_, by omega, by omega⟩
    · simp [bal, hfF0]
    · rw [haccs, Lemmas.bal_applyAdd_self]
      simp [bal, hfF1]
    · simp [bal, hfT0]
    · rw [haccs, Lemmas.bal_applyAdd_other _ _ _ _ (Ne.symm hne), Lemmas.bal_applyAdd_self]
      simp [bal, hfT0]

/-- Witness for claim C1: a concrete successful transfer of 10 from account
1 to account 2 on the two-account database. -/
theorem claim_C1_witness :
    ∃ sb sa tb ta,
      bal dbTwo.accounts 1 = some sb ∧
      bal (TransferTx okTxEnv noFaults none
        { from_account_id := 1, to_account_id := 2, amount := 10 } dbTwo).db.accounts 1 =
        some sa ∧
      bal dbTwo.accounts 2 = some tb ∧
      bal (TransferTx okTxEnv noFaults none
        { from_account_id := 1, to_account_id := 2, amount := 10 } dbTwo).db.accounts 2 =
        some ta ∧
      sb - sa = 10 ∧ ta - tb = 10 :=
  claim_C1_balance_deltas okTxEnv noFaults none
    { from_account_id := 1, to_account_id := 2, amount := 10 } dbTwo
    (by decide) (by decide) (by decide)

/-- Claim C2: for a transfer between two accounts with ids i less than j,
whichever of the two is the source, every balance adjustment issued against
i comes strictly before any balance adjustment issued against j: the
sequence of adjusted account ids of any run is a prefix of the ascending
sequence i then j. -/
theorem claim_C2_lock_order (tenv : TxEnv) (qenv : QEnv) (l : Option String)
    (arg : TransferTxParams) (db : DB) (i j : Int) (hij : i < j)
    (hpair : (arg.from_account_id = i ∧ arg.to_account_id = j) ∨
             (arg.from_account_id = j ∧ arg.to_account_id = i)) :
    adjustedIds (TransferTx tenv qenv l arg db).trace = [] ∨
    adjustedIds (TransferTx tenv qenv l arg db).trace = [i] ∨
    adjustedIds (TransferTx tenv qenv l arg db).trace = [i, j] := by
  rcases Lemmas.transferTx_trace_cases tenv qenv l arg db with htr | htr
  · rw [htr]
    exact Or.inl rfl
  · rw [htr]
    obtain ⟨X, hX, hXc⟩ := Lemmas.transferTxBody_adjusted qenv l arg (TxState.init db)
    rw [hX]
    have hinit : adjustedIds (TxState.init db).trace = [] := rfl
    rw [hinit]
    simp only [List.nil_append]
    rcases hpair with ⟨hf, ht⟩ | ⟨hf, ht⟩
    · have hlt : arg.from_account_id < arg.to_account_id := by
        rw [hf, ht]; exact hij
      rcases hXc with h | h | h
      · exact Or.inl h
      · refine Or.inr (Or.inl ?_)
        rw [h, if_pos hlt, hf]
      · refine Or.inr (Or.inr ?_)
        rw [h, if_pos hlt, if_pos hlt, hf, ht]
    · have hlt : ¬ arg.from_account_id < arg.to_account_id := by
        rw [hf, ht]; exact not_lt.mpr (le_of_lt hij)
      rcases hXc with h | h | h
      · exact Or.inl h
      · refine Or.inr (Or.inl ?_)
        rw [h, if_neg hlt, ht]
      · refine Or.inr (Or.inr ?_)
        rw [h, if_neg hlt, if_neg hlt, ht, hf]

/-- Witness for claim C2: a concrete transfer from account 2 to account 1,
whose adjustments are nevertheless ordered 1 before 2. -/
theorem claim_C2_witness :
    adjustedIds (TransferTx okTxEnv noFaults none
      { from_account_id := 2, to_account_id := 1, amount := 10 } dbTwo).trace = [] ∨
    adjustedIds (TransferTx okTxEnv noFaults none
      { from_account_id := 2, to_account_id := 1, amount := 10 } dbTwo).trace = [1] ∨
    adjustedIds (TransferTx okTxEnv noFaults none
      { from_account_id := 2, to_account_id := 1, amount := 10 } dbTwo).trace = [1, 2] :=
  claim_C2_lock_order okTxEnv noFaults none
    { from_account_id := 2, to_account_id := 1, amount := 10 } dbTwo 1 2
    (by decide) (Or.inr ⟨rfl, rfl⟩)

/-- Claim C5: a successful TransferTx appends exactly one transfer row
(with the given source, destination and amount) and exactly two entry rows:
the source entry with the amount negated, the destination entry with the
amount as given, the two summing to zero; and a failed TransferTx appends
neither transfer nor entry rows. -/
theorem claim_C5_created_records (tenv : TxEnv) (qenv : QEnv) (l : Option String)
    (arg : TransferTxParams) (db : DB) :
    ((TransferTx tenv qenv l arg db).error = none →
      ∃ t fe te,
        (TransferTx tenv qenv l arg db).db.transfers = db.transfers ++ [t] ∧
        t.from_account_id = arg.from_account_id ∧
        t.to_account_id = arg.to_account_id ∧
        t.amount = arg.amount ∧
        (TransferTx tenv qenv l arg db).db.entries = db.entries ++ [fe, te] ∧
        fe.account_id = arg.from_account_id ∧
        fe.amount = -arg.amount ∧
        te.account_id = arg.to_account_id ∧
        te.amount = arg.amount ∧
        fe.amount + te.amount = 0) ∧
    ((TransferTx tenv qenv l arg db).error ≠ none →
      (TransferTx tenv qenv l arg db).db.transfers = db.transfers ∧
      (TransferTx tenv qenv l arg db).db.entries = db.entries) := by
  constructor
  · intro hok
    obtain ⟨r, s1, hbody, hres, hdb, htrace⟩ := Lemmas.transferTx_error_none hok
    obtain ⟨htf, hfe, hte, htrs, hent, -, -, -, -, -⟩ := Lemmas.transferTxBody_ok_inv hbody
    rw [hdb]
    refine ⟨r.transfer, r.from_entry, r.to_entry, ?_, ?_, ?_, ?_, ?_, ?_, ?_, ?_, ?_, ?_⟩
    · simpa [TxState.init] using htrs
    · rw [htf]
    · rw [htf]
    · rw [htf]
    · simpa [TxState.init] using hent
    · rw [hfe]
    · rw [hfe]
    · rw [hte]
    · rw [hte]
    · rw [hfe, hte]
      simp
  · intro herr
    rw [Lemmas.transferTx_error_db herr]
    exact ⟨rfl, rfl⟩

/-- Witness for claim C5: the success part at a concrete no-fault run, and
the failure part at a concrete run whose second step fails. -/
theorem claim_C5_witness :
    (∃ t fe te,
      (TransferTx okTxEnv noFaults none
        { from_account_id := 1, to_account_id := 2, amount := 10 } dbTwo).db.transfers =
        dbTwo.transfers ++ [t] ∧
      t.from_account_id = 1 ∧ t.to_account_id = 2 ∧ t.amount = 10 ∧
      (TransferTx okTxEnv noFaults none
        { from_account_id := 1, to_account_id := 2, amount := 10 } dbTwo).db.entries =
        dbTwo.entries ++ [fe, te] ∧
      fe.account_id = 1 ∧ fe.amount = -10 ∧
      te.account_id = 2 ∧ te.amount = 10 ∧
      fe.amount + te.amount = 0) ∧
    ((TransferTx okTxEnv (failAt 1) none
        { from_account_id := 1, to_account_id := 2, amount := 10 } dbTwo).db.transfers =
      dbTwo.transfers ∧
     (TransferTx okTxEnv (failAt 1) none
        { from_account_id := 1, to_account_id := 2, amount := 10 } dbTwo).db.entries =
      dbTwo.entries) :=
  ⟨(claim_C5_created_records okTxEnv noFaults none
      { from_account_id := 1, to_account_id := 2, amount := 10 } dbTwo).1 (by decide),
   (claim_C5_created_records okTxEnv (failAt 1) none
      { from_account_id := 1, to_account_id := 2, amount := 10 } dbTwo).2 (by decide)⟩

/-- Claim C6: on success with distinct accounts, the returned result
aggregates the created transfer row, the two created entries matched to
their roles, and the two post-adjustment account rows matched to their
roles, in both branches of the id-ordering split. -/
theorem claim_C6_result_aggregation (tenv : TxEnv) (qenv : QEnv) (l : Option String)
    (arg : TransferTxParams) (db : DB)
    (hne : arg.from_account_id ≠ arg.to_account_id)
    (hok : (TransferTx tenv qenv l arg db).error = none) :
    ∃ r, (TransferTx tenv qenv l arg db).result = some r ∧
      (TransferTx tenv qenv l arg db).db.transfers = db.transfers ++ [r.transfer] ∧
      (TransferTx tenv qenv l arg db).db.entries =
        db.entries ++ [r.from_entry, r.to_entry] ∧
      r.transfer.from_account_id = arg.from_account_id ∧
      r.transfer.to_account_id = arg.to_account_id ∧
      r.transfer.amount = arg.amount ∧
      r.from_entry.account_id = arg.from_account_id ∧
      r.from_entry.amount = -arg.amount ∧
      r.to_entry.account_id = arg.to_account_id ∧
      r.to_entry.amount = arg.amount ∧
      (TransferTx tenv qenv l arg db).db.accounts.find?
        (fun a => a.id = arg.from_account_id) = some r.from_account ∧
      (TransferTx tenv qenv l arg db).db.accounts.find?
        (fun a => a.id = arg.to_account_id) = some r.to_account := by
  obtain ⟨r, s1, hbody, hres, hdb, htrace⟩ := Lemmas.transferTx_error_none hok
  obtain ⟨htf, hfe, hte, htrs, hent, -, -, -, -, hbr⟩ := Lemmas.transferTxBody_ok_inv hbody
  rw [hdb]
  refine ⟨r, hres, by simpa [TxState.init] using htrs,
    by simpa [TxState.init] using hent,
    by rw [htf], by rw [htf], by rw [htf],
    by rw [hfe], by rw [hfe], by rw [hte], by rw [hte], ?_, ?_⟩
  · rcases hbr with ⟨hlt, ⟨aF, hfF, hrF⟩, ⟨aT, hfT, hrT⟩, hacc, -⟩ |
      ⟨hlt, ⟨aT, hfT, hrT⟩, ⟨aF, hfF, hrF⟩, hacc, -⟩
    · have hfF0 : db.accounts.find? (fun a => a.id = arg.from_account_id) = some aF := by
        simpa [TxState.init] using hfF
      have haccs : s1.db.accounts =
          applyAdd (applyAdd db.accounts arg.from_account_id (-arg.amount))
            arg.to_account_id arg.amount := by
        simpa [TxState.init] using hacc
      rw [haccs,
        Lemmas.find_applyAdd_other _ arg.to_account_id arg.from_account_id arg.amount hne,
        Lemmas.find_applyAdd_self, hfF0, hrF]
      rfl
    · have hfF1 : (applyAdd db.accounts arg.to_account_id arg.amount).find?
          (fun a => a.id = arg.from_account_id) = some aF := by
        simpa [TxState.init] using hfF
      have haccs : s1.db.accounts =
          applyAdd (applyAdd db.accounts arg.to_account_id arg.amount)
            arg.from_account_id (-arg.amount) := by
        simpa [TxState.init] using hacc
      rw [haccs, Lemmas.find_applyAdd_self, hfF1, hrF]
      rfl
  · rcases hbr with ⟨hlt, ⟨aF, hfF, hrF⟩, ⟨aT, hfT, hrT⟩, hacc, -⟩ |
      ⟨hlt, ⟨aT, hfT, hrT⟩, ⟨aF, hfF, hrF⟩, hacc, -⟩
    · have hfT1 : (applyAdd db.accounts arg.from_account_id (-arg.amount)).find?
          (fun a => a.id = arg.to_account_id) = some aT := by
        simpa [TxState.init] using hfT
      have haccs : s1.db.accounts =
          applyAdd (applyAdd db.accounts arg.from_account_id (-arg.amount))
            arg.to_account_id arg.amount := by
        simpa [TxState.init] using hacc
      rw [haccs, Lemmas.find_applyAdd_self, hfT1, hrT]
      rfl
    · have hfT0 : db.accounts.find? (fun a => a.id = arg.to_account_id) = some aT := by
        simpa [TxState.init] using hfT
      have haccs : s1.db.accounts =
          applyAdd (applyAdd db.accounts arg.to_account_id arg.amount)
            arg.from_account_id (-arg.amount) := by
        simpa [TxState.init] using hacc
      rw [haccs,
        Lemmas.find_applyAdd_other _ arg.from_account_id arg.to_account_id (-arg.amount)
          (Ne.symm hne),
        Lemmas.find_applyAdd_self, hfT0, hrT]
      rfl

/-- Witness for claim C6: a concrete successful transfer from account 2 to
account 1 (the branch that adjusts the destination first). -/
theorem claim_C6_witness :
    ∃ r, (TransferTx okTxEnv noFaults none
        { from_account_id := 2, to_account_id := 1, amount := 10 } dbTwo).result = some r ∧
      (TransferTx okTxEnv noFaults none
        { from_account_id := 2, to_account_id := 1, amount := 10 } dbTwo).db.transfers =
        dbTwo.transfers ++ [r.transfer] ∧
      (TransferTx okTxEnv noFaults none
        { from_account_id := 2, to_account_id := 1, amount := 10 } dbTwo).db.entries =
        dbTwo.entries ++ [r.from_entry, r.to_entry] ∧
      r.transfer.from_account_id = 2 ∧
      r.transfer.to_account_id = 1 ∧
      r.transfer.amount = 10 ∧
      r.from_entry.account_id = 2 ∧
      r.from_entry.amount = -10 ∧
      r.to_entry.account_id = 1 ∧
      r.to_entry.amount = 10 ∧
      (TransferTx okTxEnv noFaults none
        { from_account_id := 2, to_account_id := 1, amount := 10 } dbTwo).db.accounts.find?
        (fun a => a.id = 2) = some r.from_account ∧
      (TransferTx okTxEnv noFaults none
        { from_account_id := 2, to_account_id := 1, amount := 10 } dbTwo).db.accounts.find?
        (fun a => a.id = 1) = some r.to_account :=
  claim_C6_result_aggregation okTxEnv noFaults none
    { from_account_id := 2, to_account_id := 1, amount := 10 } dbTwo
    (by decide) (by decide)

/-- Claim C9: the debug transaction label read from the context under txKey
does not influence behaviour.  Two TransferTx calls differing only in the
label return the same result, the same error, the same persisted database,
and issue the same sequence of repository operations; only the diagnostic
print log differs. -/
theorem claim_C9_label_independence (tenv : TxEnv) (qenv : QEnv)
    (l1 l2 : Option String) (arg : TransferTxParams) (db : DB) :
    (TransferTx tenv qenv l1 arg db).result = (TransferTx tenv qenv l2 arg db).result ∧
    (TransferTx tenv qenv l1 arg db).error = (TransferTx tenv qenv l2 arg db).error ∧
    (TransferTx tenv qenv l1 arg db).db = (TransferTx tenv qenv l2 arg db).db ∧
    (TransferTx tenv qenv l1 arg db).trace = (TransferTx tenv qenv l2 arg db).trace := by
  have hcong := @Lemmas.transferTxBody_congr qenv l1 l2 arg
    (TxState.init db) (TxState.init db) ⟨rfl, rfl, rfl⟩
  cases hb : tenv.beginErr with
  | some e => simp [TransferTx, execTx, hb]
  | none =>
    cases hA : transferTxBody qenv l1 arg (TxState.init db) with
    | error es1 =>
      obtain ⟨e1, t1⟩ := es1
      cases hB : transferTxBody qenv l2 arg (TxState.init db) with
      | error es2 =>
        obtain ⟨e2, t2⟩ := es2
        rw [hA, hB] at hcong
        have hc : e1 = e2 ∧ (t1.db = t2.db ∧ t1.trace = t2.trace ∧ t1.step = t2.step) :=
          hcong
        obtain ⟨he, -, htr2, -⟩ := hc
        subst he
        cases hrb : tenv.rollbackErr <;>
          simp [TransferTx, execTx, hb, hA, hB, hrb, htr2]
      | ok v2 =>
        obtain ⟨r2, t2⟩ := v2
        rw [hA, hB] at hcong
        exact hcong.elim
    | ok v1 =>
      obtain ⟨r1, t1⟩ := v1
      cases hB : transferTxBody qenv l2 arg (TxState.init db) with
      | error es2 =>
        obtain ⟨e2, t2⟩ := es2
        rw [hA, hB] at hcong
        exact hcong.elim
      | ok v2 =>
        obtain ⟨r2, t2⟩ := v2
        rw [hA, hB] at hcong
        have hc : r1 = r2 ∧ (t1.db = t2.db ∧ t1.trace = t2.trace ∧ t1.step = t2.step) :=
          hcong
        obtain ⟨hr, hdb2, htr2, -⟩ := hc
        subst hr
        cases hc2 : tenv.commitErr <;>
          simp [TransferTx, execTx, hb, hA, hB, hc2, hdb2, htr2]

namespace Lemmas

theorem transferTxBody_failAt {qenv : QEnv} (l : Option String) (arg : TransferTxParams)
    (db : DB) {e : GoError} {j : Nat} (hj : j ≤ 4) (hqj : qenv j = some e)
    (hmin : ∀ i, i < j → qenv i = none)
    (hfrom : (db.accounts.find? (fun a => a.id = arg.from_account_id)).isSome = true)
    (hto : (db.accounts.find? (fun a => a.id = arg.to_account_id)).isSome = true) :
    ∃ s1, transferTxBody qenv l arg (TxState.init db) = .error (e, s1) ∧
      s1.trace.length = j + 1 := by
  interval_cases j
  · simp only [transferTxBody, createTransfer, logPrint, TxState.init, hqj]
    exact ⟨_, rfl, rfl⟩
  · have h0 : qenv 0 = none := hmin 0 (by omega)
    simp only [transferTxBody, createTransfer, createEntry, logPrint, TxState.init, h0, hqj]
    exact ⟨_, rfl, rfl⟩
  · have h0 : qenv 0 = none := hmin 0 (by omega)
    have h1 : qenv 1 = none := hmin 1 (by omega)
    simp only [transferTxBody, createTransfer, createEntry, logPrint, TxState.init,
      h0, h1, hqj]
    exact ⟨_, rfl, rfl⟩
  · have h0 : qenv 0 = none := hmin 0 (by omega)
    have h1 : qenv 1 = none := hmin 1 (by omega)
    have h2 : qenv 2 = none := hmin 2 (by omega)
    by_cases hlt : arg.from_account_id < arg.to_account_id
    · simp only [transferTxBody, createTransfer, createEntry, addMoney,
        addAccountBalance, logPrint, TxState.init, h0, h1, h2, hqj, hlt, reduceIte]
      exact ⟨_, rfl, rfl⟩
    · simp only [transferTxBody, createTransfer, createEntry, addMoney,
        addAccountBalance, logPrint, TxState.init, h0, h1, h2, hqj, hlt, reduceIte]
      exact ⟨_, rfl, rfl⟩
  · have h0 : qenv 0 = none := hmin 0 (by omega)
    have h1 : qenv 1 = none := hmin 1 (by omega)
    have h2 : qenv 2 = none := hmin 2 (by omega)
    have h3 : qenv 3 = none := hmin 3 (by omega)
    obtain ⟨aF, hfF⟩ := Option.isSome_iff_exists.mp hfrom
    obtain ⟨aT, hfT⟩ := Option.isSome_iff_exists.mp hto
    by_cases hlt : arg.from_account_id < arg.to_account_id
    · simp only [transferTxBody, createTransfer, createEntry, addMoney,
        addAccountBalance, logPrint, TxState.init, h0, h1, h2, h3, hqj, hlt,
        if_true, reduceIte, hfF]
      exact ⟨_, rfl, rfl⟩
    · simp only [transferTxBody, createTransfer, createEntry, addMoney,
        addAccountBalance, logPrint, TxState.init, h0, h1, h2, h3, hqj, hlt,
        if_false, reduceIte, hfT]
      exact ⟨_, rfl, rfl⟩

end Lemmas

/-- Claim C3: if any step of the transfer workflow fails, TransferTx aborts.
Whenever TransferTx returns an error the persisted database is unchanged
(full rollback, no effect of earlier steps remains observable); and when the
first failure is injected at step j (with the transaction begun, rollback
succeeding, and both accounts present so no earlier step fails), TransferTx
surfaces that error, issues exactly the operations of steps up to and
including j and none after, and leaves the database unchanged. -/
theorem claim_C3_abort_and_rollback (tenv : TxEnv) (qenv : QEnv) (l : Option String)
    (arg : TransferTxParams) (db : DB) :
    ((TransferTx tenv qenv l arg db).error ≠ none →
      (TransferTx tenv qenv l arg db).db = db) ∧
    (∀ (j : Nat) (e : GoError), tenv.beginErr = none → tenv.rollbackErr = none →
      j ≤ 4 → qenv j = some e → (∀ i, i < j → qenv i = none) →
      (db.accounts.find? (fun a => a.id = arg.from_account_id)).isSome = true →
      (db.accounts.find? (fun a => a.id = arg.to_account_id)).isSome = true →
      (TransferTx tenv qenv l arg db).error = some e ∧
      (TransferTx tenv qenv l arg db).db = db ∧
      (TransferTx tenv qenv l arg db).trace.length = j + 1) := by
  constructor
  · exact fun h => Lemmas.transferTx_error_db h
  · intro j e hb hrb hj hqj hmin hfrom hto
    obtain ⟨s1, hbody, hlen⟩ := Lemmas.transferTxBody_failAt l arg db hj hqj hmin hfrom hto
    refine ⟨?_, ?_, ?_⟩ <;> simp [TransferTx, execTx, hb, hrb, hbody, hlen]

/-- Witness for claim C3: the rollback part at a run failing at the first
step, and the abort-at-step part at a run whose third step fails. -/
theorem claim_C3_witness :
    (TransferTx okTxEnv (failAt 0) none
      { from_account_id := 1, to_account_id := 2, amount := 10 } dbTwo).db = dbTwo ∧
    ((TransferTx okTxEnv (failAt 2) none
        { from_account_id := 1, to_account_id := 2, amount := 10 } dbTwo).error =
      some (GoError.errMsg 7) ∧
     (TransferTx okTxEnv (failAt 2) none
        { from_account_id := 1, to_account_id := 2, amount := 10 } dbTwo).db = dbTwo ∧
     (TransferTx okTxEnv (failAt 2) none
        { from_account_id := 1, to_account_id := 2, amount := 10 } dbTwo).trace.length =
      2 + 1) :=
  ⟨(claim_C3_abort_and_rollback okTxEnv (failAt 0) none
      { from_account_id := 1, to_account_id := 2, amount := 10 } dbTwo).1 (by decide),
   (claim_C3_abort_and_rollback okTxEnv (failAt 2) none
      { from_account_id := 1, to_account_id := 2, amount := 10 } dbTwo).2 2
      (GoError.errMsg 7) rfl rfl (by decide) (by decide) (by decide) (by decide) (by decide)⟩

namespace Lemmas

theorem transferTxBody_run_ok (qenv : QEnv) (l : Option String)
    (arg : TransferTxParams) (db : DB) (hq : ∀ n, qenv n = none)
    {aF : Account}
    (hfF : db.accounts.find? (fun a => a.id = arg.from_account_id) = some aF)
    {aT : Account}
    (hfT : db.accounts.find? (fun a => a.id = arg.to_account_id) = some aT) :
    ∃ r s1, transferTxBody qenv l arg (TxState.init db) = .ok (r, s1) := by
  have h0 := hq 0
  have h1 := hq 1
  have h2 := hq 2
  have h3 := hq 3
  have h4 := hq 4
  rcases lt_trichotomy arg.from_account_id arg.to_account_id with hlt | heq | hgt
  · have hne2 : arg.to_account_id ≠ arg.from_account_id := (ne_of_lt hlt).symm
    simp only [transferTxBody, createTransfer, createEntry, addMoney,
      addAccountBalance, logPrint, TxState.init, h0, h1, h2, h3, h4, hlt, reduceIte,
      hfF, find_applyAdd_other db.accounts arg.from_account_id arg.to_account_id
        (-arg.amount) hne2, hfT]
    exact ⟨_, _, rfl⟩
  · simp only [transferTxBody, createTransfer, createEntry, addMoney,
      addAccountBalance, logPrint, TxState.init, heq, lt_self_iff_false, reduceIte,
      h0, h1, h2, h3, h4, hfT, find_applyAdd_self, Option.map_some']
    exact ⟨_, _, rfl⟩
  · have hlt : ¬ arg.from_account_id < arg.to_account_id := not_lt.mpr (le_of_lt hgt)
    have hne : arg.from_account_id ≠ arg.to_account_id := ne_of_gt hgt
    simp only [transferTxBody, createTransfer, createEntry, addMoney,
      addAccountBalance, logPrint, TxState.init, h0, h1, h2, h3, h4, hlt, reduceIte,
      hfT, find_applyAdd_other db.accounts arg.to_account_id arg.from_account_id
        arg.amount hne, hfF]
    exact ⟨_, _, rfl⟩

end Lemmas

/-- Counterexample to claim C7 as stated: a TransferTx call with identical
source and destination and a negative amount is not rejected with a
validation error before the transaction; it enters the transaction, issues
all five repository operations, and succeeds. -/
theorem claim_C7_counterexample :
    (TransferTx okTxEnv noFaults none
      { from_account_id := 1, to_account_id := 1, amount := -5 } dbTwo).error = none ∧
    (TransferTx okTxEnv noFaults none
      { from_account_id := 1, to_account_id := 1, amount := -5 } dbTwo).trace.length = 5 := by
  exact ⟨rfl, rfl⟩

/-- Claim C7 as amended: TransferTx performs no validation.  A request with
a non-positive amount or with identical source and destination account ids
is not rejected before the transaction: the transaction is entered and the
workflow executes its repository operations, beginning with CreateTransfer,
and under successful begin and commit, no driver faults and existing
accounts it completes without error. -/
theorem claim_C7_amended_no_validation (tenv : TxEnv) (qenv : QEnv) (l : Option String)
    (arg : TransferTxParams) (db : DB) {aF aT : Account}
    (hinvalid : arg.amount ≤ 0 ∨ arg.from_account_id = arg.to_account_id)
    (hb : tenv.beginErr = none) (hc : tenv.commitErr = none)
    (hq : ∀ n, qenv n = none)
    (hfF : db.accounts.find? (fun a => a.id = arg.from_account_id) = some aF)
    (hfT : db.accounts.find? (fun a => a.id = arg.to_account_id) = some aT) :
    (TransferTx tenv qenv l arg db).error = none ∧
    ∃ rest, (TransferTx tenv qenv l arg db).trace =
      RepoOp.createTransfer arg.from_account_id arg.to_account_id arg.amount :: rest := by
  obtain ⟨r, s1, hbody⟩ := Lemmas.transferTxBody_run_ok qenv l arg db hq hfF hfT
  have herr : (TransferTx tenv qenv l arg db).error = none := by
    simp [TransferTx, execTx, hb, hc, hbody]
  have htr : (TransferTx tenv qenv l arg db).trace = s1.trace := by
    simp [TransferTx, execTx, hb, hc, hbody]
  refine ⟨herr, ?_⟩
  obtain ⟨-, -, -, -, -, -, -, -, -, hbr⟩ := Lemmas.transferTxBody_ok_inv hbody
  rcases hbr with ⟨-, -, -, -, htrace⟩ | ⟨-, -, -, -, htrace⟩
  · exact ⟨_, by rw [htr]; simpa [TxState.init] using htrace⟩
  · exact ⟨_, by rw [htr]; simpa [TxState.init] using htrace⟩

/-- Witness for the amended claim C7: a concrete self-transfer with a
negative amount that enters the transaction and succeeds. -/
theorem claim_C7_amended_witness :
    (TransferTx okTxEnv noFaults none
      { from_account_id := 1, to_account_id := 1, amount := -5 } dbTwo).error = none ∧
    ∃ rest, (TransferTx okTxEnv noFaults none
      { from_account_id := 1, to_account_id := 1, amount := -5 } dbTwo).trace =
      RepoOp.createTransfer 1 1 (-5) :: rest :=
  @claim_C7_amended_no_validation okTxEnv noFaults none
    { from_account_id := 1, to_account_id := 1, amount := -5 } dbTwo
    { id := 1, owner := "alice", balance := 100, currency := "USD" }
    { id := 1, owner := "alice", balance := 100, currency := "USD" }
    (Or.inr rfl) rfl rfl (fun _ => rfl) (by decide) (by decide)

/-- Claim C10: a TransferTx call with identical source and destination is
not rejected.  With the transaction machinery succeeding and the account
present, it succeeds, creates one transfer row and two entry rows on that
account (one of minus the amount and one of plus the amount), applies plus
the amount and then minus the amount to that same account, leaves the
account balance unchanged, and returns a populated result. -/
theorem claim_C10_self_transfer (tenv : TxEnv) (qenv : QEnv) (l : Option String)
    (arg : TransferTxParams) (db : DB) {a0 : Account}
    (hself : arg.from_account_id = arg.to_account_id)
    (hb : tenv.beginErr = none) (hc : tenv.commitErr = none)
    (hq : ∀ n, qenv n = none)
    (hf : db.accounts.find? (fun a => a.id = arg.to_account_id) = some a0) :
    (TransferTx tenv qenv l arg db).error = none ∧
    ∃ r, (TransferTx tenv qenv l arg db).result = some r ∧
      (TransferTx tenv qenv l arg db).db.transfers = db.transfers ++ [r.transfer] ∧
      r.transfer.from_account_id = arg.to_account_id ∧
      r.transfer.to_account_id = arg.to_account_id ∧
      r.transfer.amount = arg.amount ∧
      (TransferTx tenv qenv l arg db).db.entries =
        db.entries ++ [r.from_entry, r.to_entry] ∧
      r.from_entry.account_id = arg.to_account_id ∧
      r.from_entry.amount = -arg.amount ∧
      r.to_entry.account_id = arg.to_account_id ∧
      r.to_entry.amount = arg.amount ∧
      (TransferTx tenv qenv l arg db).trace =
        [RepoOp.createTransfer arg.to_account_id arg.to_account_id arg.amount,
         RepoOp.createEntry arg.to_account_id (-arg.amount),
         RepoOp.createEntry arg.to_account_id arg.amount,
         RepoOp.addAccountBalance arg.to_account_id arg.amount,
         RepoOp.addAccountBalance arg.to_account_id (-arg.amount)] ∧
      bal (TransferTx tenv qenv l arg db).db.accounts arg.to_account_id =
        bal db.accounts arg.to_account_id := by
  have hfF : db.accounts.find? (fun a => a.id = arg.from_account_id) = some a0 := by
    rw [hself]; exact hf
  obtain ⟨r, s1, hbody⟩ := Lemmas.transferTxBody_run_ok qenv l arg db hq hfF hf
  have herr : (TransferTx tenv qenv l arg db).error = none := by
    simp [TransferTx, execTx, hb, hc, hbody]
  have hres : (TransferTx tenv qenv l arg db).result = some r := by
    simp [TransferTx, execTx, hb, hc, hbody]
  have hdb : (TransferTx tenv qenv l arg db).db = s1.db := by
    simp [TransferTx, execTx, hb, hc, hbody]
  have htr : (TransferTx tenv qenv l arg db).trace = s1.trace := by
    simp [TransferTx, execTx, hb, hc, hbody]
  have hlt : ¬ arg.from_account_id < arg.to_account_id := by
    rw [hself]; exact lt_irrefl _
  obtain ⟨htf, hfe, hte, htrs, hent, -, -, -, -, hbr⟩ := Lemmas.transferTxBody_ok_inv hbody
  rcases hbr with ⟨hlt2, -⟩ | ⟨-, -, -, hacc, htrace⟩
  · exact absurd hlt2 hlt
  · refine ⟨herr, r, hres, ?_, ?_, ?_, ?_, ?_, ?_, ?_, ?_, ?_, ?_, ?_⟩
    · rw [hdb]; simpa [TxState.init] using htrs
    · rw [htf, hself]
    · rw [htf]
    · rw [htf]
    · rw [hdb]; simpa [TxState.init] using hent
    · rw [hfe, hself]
    · rw [hfe]
    · rw [hte]
    · rw [hte]
    · rw [htr]
      have := htrace
      rw [hself] at this
      simpa [TxState.init] using this
    · rw [hdb]
      have haccs : s1.db.accounts =
          applyAdd (applyAdd db.accounts arg.to_account_id arg.amount)
            arg.to_account_id (-arg.amount) := by
        have := hacc
        rw [hself] at this
        simpa [TxState.init] using this
      rw [haccs, Lemmas.bal_applyAdd_self, Lemmas.bal_applyAdd_self]
      cases hbal : bal db.accounts arg.to_account_id with
      | none => rfl
      | some b => simp

/-- Witness for claim C10: a concrete self-transfer of 10 on account 1. -/
theorem claim_C10_witness :
    (TransferTx okTxEnv noFaults none
      { from_account_id := 1, to_account_id := 1, amount := 10 } dbTwo).error = none ∧
    ∃ r, (TransferTx okTxEnv noFaults none
        { from_account_id := 1, to_account_id := 1, amount := 10 } dbTwo).result = some r ∧
      (TransferTx okTxEnv noFaults none
        { from_account_id := 1, to_account_id := 1, amount := 10 } dbTwo).db.transfers =
        dbTwo.transfers ++ [r.transfer] ∧
      r.transfer.from_account_id = 1 ∧
      r.transfer.to_account_id = 1 ∧
      r.transfer.amount = 10 ∧
      (TransferTx okTxEnv noFaults none
        { from_account_id := 1, to_account_id := 1, amount := 10 } dbTwo).db.entries =
        dbTwo.entries ++ [r.from_entry, r.to_entry] ∧
      r.from_entry.account_id = 1 ∧
      r.from_entry.amount = -10 ∧
      r.to_entry.account_id = 1 ∧
      r.to_entry.amount = 10 ∧
      (TransferTx okTxEnv noFaults none
        { from_account_id := 1, to_account_id := 1, amount := 10 } dbTwo).trace =
        [RepoOp.createTransfer 1 1 10,
         RepoOp.createEntry 1 (-10),
         RepoOp.createEntry 1 10,
         RepoOp.addAccountBalance 1 10,
         RepoOp.addAccountBalance 1 (-10)] ∧
      bal (TransferTx okTxEnv noFaults none
        { from_account_id := 1, to_account_id := 1, amount := 10 } dbTwo).db.accounts 1 =
        bal dbTwo.accounts 1 :=
  @claim_C10_self_transfer okTxEnv noFaults none
    { from_account_id := 1, to_account_id := 1, amount := 10 } dbTwo
    { id := 1, owner := "alice", balance := 100, currency := "USD" }
    rfl rfl rfl (fun _ => rfl) (by decide)

end SimpleBank
